import Mathlib

/-!
# A state-graph execution runtime and its tutorial graphs

This development embeds, shallowly, the graphs built by the tutorial scripts
of the repository (`01_hello_world.py`, `03_conditional_edges.py`,
`04_multiple_paths.py`, `06_error_handling.py`, `07_memory_persistence.py`,
`11_agent_patterns.py`, `15_advanced_state.py`, `17_checkpoints_sqlite.py`,
`18_branching_merging.py`).  The node functions and routing functions are
translated directly from the Python source.  The execution engine that runs
them (the LangGraph runtime) is not part of the repository's sources, so it
is modelled from the specification: supersteps over a frontier of node
names, a channel store with an `overwrite` reducer that raises a conflict
error on disagreeing same-superstep writers, conditional routing through an
allow-list mapping, and a checkpoint store written at the end of every
superstep.
-/

deriving instance DecidableEq for Except

namespace LG

/-- Modelled from the spec: the terminal marker (`END` in the Python source)
that ends a run when it becomes the frontier. -/
def endMarker : String := "__end__"

/-- Association-list lookup, first match wins.  Used for node tables, edge
tables, routing allow-lists and the in-memory checkpoint store. -/
def alookup [DecidableEq α] : List (α × β) → α → Option β
  | [], _ => none
  | (a, b) :: rest, k => if a = k then some b else alookup rest k

/-- Order-preserving de-duplication, with an accumulator of names already
kept.  `dedupAux seen l` drops from `l` every element of `seen` and every
later duplicate. -/
def dedupAux [DecidableEq α] (seen : List α) : List α → List α
  | [] => []
  | a :: rest => if a ∈ seen then dedupAux seen rest else a :: dedupAux (a :: seen) rest

/-- Modelled from the spec: the next frontier is the de-duplicated union of
all contributed targets. -/
def dedup [DecidableEq α] (l : List α) : List α := dedupAux [] l

/-- Modelled from the spec: fatal engine errors.  `conflict` is the
`ConflictError` of §4.1 (naming the channel and both values); `routing` is
the `RoutingError` of §4.3 (naming the undeclared target). -/
inductive Err (K V : Type) where
  | conflict (key : K) (v1 v2 : V)
  | routing (name : String)
deriving DecidableEq

/-- Modelled from the spec: one pass of the Channel Store's `apply` (§4.1)
with the `overwrite` reducer.  `reg` records the first value written to each
channel during this superstep; a later writer that disagrees with it is a
fatal conflict, a later writer with the same value just overwrites. -/
def mergeWrites [DecidableEq K] [DecidableEq V] (set : σ → K → V → σ) :
    σ → List (K × V) → List (K × V) → Except (Err K V) σ
  | s, _, [] => .ok s
  | s, reg, (k, v) :: rest =>
    match alookup reg k with
    | none => mergeWrites set (set s k v) ((k, v) :: reg) rest
    | some v0 =>
      if v0 = v then mergeWrites set (set s k v) reg rest
      else .error (.conflict k v0 v)

/-- Modelled from the spec: fold a superstep's partial updates, in completion
order, into the snapshot (§4.1). -/
def applyUpdates [DecidableEq K] [DecidableEq V] (set : σ → K → V → σ)
    (snap : σ) (ups : List (List (K × V))) : Except (Err K V) σ :=
  mergeWrites set snap [] ups.flatten

/-- Modelled from the spec: an outgoing edge is either static or a
conditional edge carrying a routing function and its allow-list mapping.  A
routing function that returns a single name in the source is embedded as a
singleton list (the spec's `Route = Single | Multi | Terminal`). -/
inductive Edge (σ : Type) where
  | static (target : String)
  | cond (router : σ → List String) (mapping : List (String × String))

/-- Modelled from the spec: a compiled plan — per-node update functions and
one outgoing edge per node, plus the channel-write primitive of the state
type.  Channel values are dynamically typed in the source; a write whose tag
does not match the channel's declared type is ignored by `set` (no such
write occurs in any of the embedded graphs). -/
structure GraphDef (σ K V : Type) where
  set : σ → K → V → σ
  nodes : List (String × (σ → List (K × V)))
  edges : List (String × Edge σ)

/-- Look up a routing-function output in the allow-list; an output absent
from the mapping is a fatal `RoutingError`. -/
def resolveTargets {K V : Type} (mapping : List (String × String)) :
    List String → Except (Err K V) (List String)
  | [] => .ok []
  | o :: rest =>
    match alookup mapping o with
    | none => .error (.routing o)
    | some t =>
      match resolveTargets (K := K) (V := V) mapping rest with
      | .error e => .error e
      | .ok ts => .ok (t :: ts)

/-- The state of a run between supersteps: the snapshot and the frontier.
This is also exactly what a checkpoint stores (§3, Checkpoint). -/
structure RunState (σ : Type) where
  snap : σ
  frontier : List String
deriving DecidableEq

/-- The update function of a named node (frontier names are always declared
in the embedded graphs; an undeclared name contributes no writes). -/
def nodeOf (g : GraphDef σ K V) (n : String) : σ → List (K × V) :=
  match alookup g.nodes n with
  | some f => f
  | none => fun _ => []

/-- Resolve the outgoing edge of one node against the post-merge snapshot. -/
def routeOne (g : GraphDef σ K V) (snap : σ) (n : String) :
    Except (Err K V) (List String) :=
  match alookup g.edges n with
  | none => .ok []
  | some (.static t) => .ok [t]
  | some (.cond router mapping) => resolveTargets mapping (router snap)

/-- Resolve routing for every node that ran, concatenating contributions in
frontier order. -/
def routeAll (g : GraphDef σ K V) (snap : σ) :
    List String → Except (Err K V) (List String)
  | [] => .ok []
  | n :: rest =>
    match routeOne g snap n with
    | .error e => .error e
    | .ok ts =>
      match routeAll g snap rest with
      | .error e => .error e
      | .ok more => .ok (ts ++ more)

/-- Modelled from the spec: the run loop stops when the frontier is empty or
contains the terminal marker (§4.3). -/
def done (rs : RunState σ) : Bool :=
  rs.frontier.isEmpty || rs.frontier.contains endMarker

/-- Modelled from the spec: one superstep (§4.3).  Every frontier node is
invoked against the same pre-superstep snapshot, all partial updates are
merged at the barrier, and routing runs against the new snapshot; the next
frontier is the de-duplicated union of the contributed targets. -/
def superstep [DecidableEq K] [DecidableEq V] (g : GraphDef σ K V)
    (rs : RunState σ) : Except (Err K V) (RunState σ) :=
  match applyUpdates g.set rs.snap (rs.frontier.map fun n => nodeOf g n rs.snap) with
  | .error e => .error e
  | .ok snap' =>
    match routeAll g snap' rs.frontier with
    | .error e => .error e
    | .ok ts => .ok ⟨snap', dedup ts⟩

/-- Modelled from the spec: run at most `n` supersteps.  The engine itself
imposes no iteration cap; `n` is only the amount of fuel this bounded
observer is willing to spend, and a terminal state is a fixed point. -/
def runN [DecidableEq K] [DecidableEq V] (g : GraphDef σ K V) :
    Nat → RunState σ → Except (Err K V) (RunState σ)
  | 0, rs => .ok rs
  | n + 1, rs =>
    if done rs then .ok rs
    else
      match superstep g rs with
      | .error e => .error e
      | .ok rs' => runN g n rs'

/-- The sequence of frontiers actually executed during `runN g n rs`: one
entry per superstep that ran, in order. -/
def traceN [DecidableEq K] [DecidableEq V] (g : GraphDef σ K V) :
    Nat → RunState σ → List (List String)
  | 0, _ => []
  | n + 1, rs =>
    if done rs then []
    else
      match superstep g rs with
      | .error _ => [rs.frontier]
      | .ok rs' => rs.frontier :: traceN g n rs'

end LG

namespace Ex01

open LG

/-- State schema of `01_hello_world.py` (`GraphState`): one channel. -/
structure St where
  message : String
deriving DecidableEq

/-- Channel keys of `01_hello_world.py`. -/
inductive K where
  | message
deriving DecidableEq

/-- Channel values of `01_hello_world.py`. -/
abbrev V := String

/-- Channel write for the hello-world state. -/
def set (_ : St) (k : K) (v : V) : St :=
  match k with
  | .message => ⟨v⟩

/-- The string transformation of `node_a`. -/
def node_a_msg (m : String) : String := "Node A says: " ++ m

/-- The string transformation of `node_b`. -/
def node_b_msg (m : String) : String := m ++ " -> Node B processed it!"

/-- `node_a` of `01_hello_world.py`. -/
def node_a (s : St) : List (K × V) := [(.message, node_a_msg s.message)]

/-- `node_b` of `01_hello_world.py`. -/
def node_b (s : St) : List (K × V) := [(.message, node_b_msg s.message)]

/-- The graph built in `main` of `01_hello_world.py`:
`node_a -> node_b -> END`, entry point `node_a`. -/
def g : GraphDef St K V where
  set := set
  nodes := [("node_a", node_a), ("node_b", node_b)]
  edges := [("node_a", .static "node_b"), ("node_b", .static endMarker)]

/-- Modelled from the spec: the scenario node `A` of §8, which sets
`message = "Hello -> A"`. -/
def specNodeA (_ : St) : List (K × V) := [(.message, "Hello -> A")]

/-- Modelled from the spec: the scenario node `B` of §8, which sets
`message = "Hello -> A -> B"`. -/
def specNodeB (_ : St) : List (K × V) := [(.message, "Hello -> A -> B")]

/-- Modelled from the spec: the scenario graph `A -> B -> END` of §8. -/
def gSpec : GraphDef St K V where
  set := set
  nodes := [("A", specNodeA), ("B", specNodeB)]
  edges := [("A", .static "B"), ("B", .static endMarker)]

end Ex01

/-- C1: for the static two-node graph, every initial state is driven through
`node_a` strictly before `node_b` (the trace of executed frontiers is
`[[node_a], [node_b]]`), and the final snapshot's message channel is
`node_b`'s transformation applied to `node_a`'s transformation of the
initial message; for the spec's scenario graph with initial message
`"Hello"`, the final snapshot is `"Hello -> A -> B"`. -/
theorem c1_static_chain_order_and_composition :
    (∀ m0 : String,
      LG.runN Ex01.g 3 ⟨⟨m0⟩, ["node_a"]⟩ =
        .ok ⟨⟨Ex01.node_b_msg (Ex01.node_a_msg m0)⟩, [LG.endMarker]⟩ ∧
      LG.traceN Ex01.g 3 ⟨⟨m0⟩, ["node_a"]⟩ = [["node_a"], ["node_b"]]) ∧
    (LG.runN Ex01.gSpec 3 ⟨⟨"Hello"⟩, ["A"]⟩ =
        .ok ⟨⟨"Hello -> A -> B"⟩, [LG.endMarker]⟩ ∧
      LG.traceN Ex01.gSpec 3 ⟨⟨"Hello"⟩, ["A"]⟩ = [["A"], ["B"]]) := by
  exact ⟨fun m0 => ⟨rfl, rfl⟩, ⟨rfl, rfl⟩⟩

namespace Ex03

open LG

/-- State schema of `03_conditional_edges.py` (`GraphState`). -/
structure St where
  number : Int
  path : String
  processed : Bool
deriving DecidableEq

/-- Channel keys of `03_conditional_edges.py`. -/
inductive K where
  | number
  | path
  | processed
deriving DecidableEq

/-- Channel values of `03_conditional_edges.py`. -/
inductive V where
  | i (n : Int)
  | s (x : String)
  | b (x : Bool)
deriving DecidableEq

/-- Channel write for the conditional-edges state. -/
def set (s : St) (k : K) (v : V) : St :=
  match k, v with
  | .number, .i n => { s with number := n }
  | .path, .s x => { s with path := x }
  | .processed, .b x => { s with processed := x }
  | _, _ => s

/-- `start_node` of `03_conditional_edges.py`. -/
def start_node (s : St) : List (K × V) :=
  [(.number, .i s.number), (.path, .s "started"), (.processed, .b false)]

/-- `even_handler` of `03_conditional_edges.py`. -/
def even_handler (s : St) : List (K × V) :=
  [(.number, .i s.number), (.path, .s "even"), (.processed, .b true)]

/-- `odd_handler` of `03_conditional_edges.py`. -/
def odd_handler (s : St) : List (K × V) :=
  [(.number, .i s.number), (.path, .s "odd"), (.processed, .b true)]

/-- `route_by_number` of `03_conditional_edges.py` (a single returned name is
embedded as a singleton route). -/
def route_by_number (s : St) : List String :=
  if s.number % 2 = 0 then ["even_handler"] else ["odd_handler"]

/-- The graph built in `main` of `03_conditional_edges.py`: entry `start`,
conditional edge keyed on `number % 2`, both handlers to `END`. -/
def g : GraphDef St K V where
  set := set
  nodes :=
    [("start", start_node), ("even_handler", even_handler),
      ("odd_handler", odd_handler)]
  edges :=
    [("start", .cond route_by_number
        [("even_handler", "even_handler"), ("odd_handler", "odd_handler")]),
      ("even_handler", .static endMarker),
      ("odd_handler", .static endMarker)]

end Ex03

/-- C5: for the conditional-edge graph keyed on `number % 2`, every initial
state with an even number runs through `even_handler` and ends with
`path = "even"`, every odd one runs through `odd_handler` and ends with
`path = "odd"`, and both reach the terminal marker. -/
theorem c5_parity_routing (s : Ex03.St) :
    (s.number % 2 = 0 →
      LG.runN Ex03.g 3 ⟨s, ["start"]⟩ =
        .ok ⟨⟨s.number, "even", true⟩, [LG.endMarker]⟩ ∧
      LG.traceN Ex03.g 3 ⟨s, ["start"]⟩ = [["start"], ["even_handler"]]) ∧
    (s.number % 2 ≠ 0 →
      LG.runN Ex03.g 3 ⟨s, ["start"]⟩ =
        .ok ⟨⟨s.number, "odd", true⟩, [LG.endMarker]⟩ ∧
      LG.traceN Ex03.g 3 ⟨s, ["start"]⟩ = [["start"], ["odd_handler"]]) := by
  obtain ⟨n, p, pr⟩ := s
  constructor
  · intro h
    have h2 : (2 : Int) ∣ n := Int.dvd_of_emod_eq_zero h
    constructor <;>
      simp [LG.runN, LG.superstep, LG.applyUpdates, LG.mergeWrites, LG.routeAll,
        LG.routeOne, LG.resolveTargets, LG.alookup, LG.nodeOf, LG.dedup,
        LG.dedupAux, LG.done, LG.traceN, LG.endMarker, Ex03.g, Ex03.set,
        Ex03.start_node, Ex03.even_handler, Ex03.odd_handler,
        Ex03.route_by_number, h2]
  · intro h
    have h2 : ¬ (2 : Int) ∣ n := fun hd => h (Int.emod_eq_zero_of_dvd hd)
    constructor <;>
      simp [LG.runN, LG.superstep, LG.applyUpdates, LG.mergeWrites, LG.routeAll,
        LG.routeOne, LG.resolveTargets, LG.alookup, LG.nodeOf, LG.dedup,
        LG.dedupAux, LG.done, LG.traceN, LG.endMarker, Ex03.g, Ex03.set,
        Ex03.start_node, Ex03.even_handler, Ex03.odd_handler,
        Ex03.route_by_number, h2]

/-- Witness for C5: the spec's concrete inputs, `number = 4` routed to the
even handler and `number = 7` routed to the odd handler. -/
theorem c5_parity_routing_witness :
    (LG.runN Ex03.g 3 ⟨⟨4, "", false⟩, ["start"]⟩ =
        .ok ⟨⟨4, "even", true⟩, [LG.endMarker]⟩ ∧
      LG.traceN Ex03.g 3 ⟨⟨4, "", false⟩, ["start"]⟩ =
        [["start"], ["even_handler"]]) ∧
    (LG.runN Ex03.g 3 ⟨⟨7, "", false⟩, ["start"]⟩ =
        .ok ⟨⟨7, "odd", true⟩, [LG.endMarker]⟩ ∧
      LG.traceN Ex03.g 3 ⟨⟨7, "", false⟩, ["start"]⟩ =
        [["start"], ["odd_handler"]]) :=
  ⟨(c5_parity_routing ⟨4, "", false⟩).1 (by decide),
    (c5_parity_routing ⟨7, "", false⟩).2 (by decide)⟩

namespace Py

/-- Python `str.upper` (over the ASCII strings of the tutorials). -/
def upper (s : String) : String := s.map Char.toUpper

/-- Python `str.lower` (over the ASCII strings of the tutorials). -/
def lower (s : String) : String := s.map Char.toLower

/-- Python `s[::-1]`. -/
def reverse (s : String) : String := ⟨s.data.reverse⟩

end Py

namespace LG

/-- A string with a non-empty left part is non-empty.  Used to evaluate the
Python truthiness checks on result strings. -/
theorem append_left_ne_empty (a b : String) (h : 0 < a.length) : a ++ b ≠ "" := by
  intro hab
  have hl := congrArg String.length hab
  rw [String.length_append] at hl
  simp at hl
  omega

/-- Membership in `dedupAux`: kept iff present in the input and not already
seen. -/
theorem mem_dedupAux [DecidableEq α] (l : List α) :
    ∀ (seen : List α) (a : α), a ∈ dedupAux seen l ↔ a ∈ l ∧ a ∉ seen := by
  induction l with
  | nil => intro seen a; simp [dedupAux]
  | cons b rest ih =>
    intro seen a
    by_cases hb : b ∈ seen
    · rw [dedupAux, if_pos hb, ih]
      constructor
      · rintro ⟨h1, h2⟩
        exact ⟨List.mem_cons_of_mem _ h1, h2⟩
      · rintro ⟨h1, h2⟩
        rcases List.mem_cons.mp h1 with h1 | h1
        · exact absurd (h1 ▸ hb) h2
        · exact ⟨h1, h2⟩
    · rw [dedupAux, if_neg hb]
      by_cases hab : a = b
      · subst hab
        simp [ih, hb]
      · simp only [List.mem_cons, ih, List.mem_cons]
        constructor
        · rintro (h1 | ⟨h1, h2⟩)
          · exact absurd h1 hab
          · exact ⟨Or.inr h1, fun hs => h2 (Or.inr hs)⟩
        · rintro ⟨h1 | h1, h2⟩
          · exact absurd h1 hab
          · exact Or.inr ⟨h1, fun hs => h2 (by
              rcases hs with hs | hs
              · exact absurd hs hab
              · exact hs)⟩

/-- `dedupAux` yields duplicate-free lists. -/
theorem nodup_dedupAux [DecidableEq α] (l : List α) :
    ∀ seen : List α, (dedupAux seen l).Nodup := by
  induction l with
  | nil => intro seen; simp [dedupAux]
  | cons b rest ih =>
    intro seen
    by_cases hb : b ∈ seen
    · rw [dedupAux, if_pos hb]
      exact ih seen
    · rw [dedupAux, if_neg hb]
      refine List.nodup_cons.mpr ⟨fun hmem => ?_, ih (b :: seen)⟩
      exact ((mem_dedupAux rest (b :: seen) b).mp hmem).2 (List.mem_cons_self b seen)

/-- The next-frontier builder keeps no duplicates and keeps exactly the
contributed targets. -/
theorem dedup_nodup_and_mem [DecidableEq α] (l : List α) :
    (dedup l).Nodup ∧ ∀ a, a ∈ dedup l ↔ a ∈ l := by
  refine ⟨nodup_dedupAux l [], fun a => ?_⟩
  rw [dedup, mem_dedupAux]
  simp

/-- Frame property of the Channel Store fold: a channel no write names keeps
its pre-merge value.  `law` says writing one channel does not move any
other. -/
theorem mergeWrites_not_written {σ K V : Type} [DecidableEq K] [DecidableEq V]
    (set : σ → K → V → σ) (get : σ → K → V)
    (law : ∀ s k v k', k' ≠ k → get (set s k v) k' = get s k') :
    ∀ (writes reg : List (K × V)) (s s' : σ) (k' : K),
      mergeWrites set s reg writes = .ok s' →
      (∀ kv ∈ writes, Prod.fst kv ≠ k') →
      get s' k' = get s k' := by
  intro writes
  induction writes with
  | nil =>
    intro reg s s' k' h _
    cases h
    rfl
  | cons kv rest ih =>
    rcases kv with ⟨k, v⟩
    intro reg s s' k' h hk
    have hk0 : k ≠ k' := hk (k, v) (List.mem_cons_self _ _)
    have hrest : ∀ kv ∈ rest, Prod.fst kv ≠ k' :=
      fun kv hkv => hk kv (List.mem_cons_of_mem _ hkv)
    rw [mergeWrites] at h
    cases halo : alookup reg k with
    | none =>
      rw [halo] at h
      rw [ih _ _ _ _ h hrest]
      exact law s k v k' (Ne.symm hk0)
    | some v0 =>
      rw [halo] at h
      have h' : (if v0 = v then mergeWrites set (set s k v) reg rest
          else .error (.conflict k v0 v)) = .ok s' := h
      by_cases hv : v0 = v
      · rw [if_pos hv] at h'
        rw [ih _ _ _ _ h' hrest]
        exact law s k v k' (Ne.symm hk0)
      · rw [if_neg hv] at h'
        cases h'

end LG

namespace Ex04

open LG

/-- State schema of `04_multiple_paths.py` (`GraphState`). -/
structure St where
  input_data : String
  path_a_result : String
  path_b_result : String
  path_c_result : String
  all_results : List String
  processing_complete : Bool
deriving DecidableEq

/-- Channel keys of `04_multiple_paths.py`. -/
inductive K where
  | input_data
  | path_a_result
  | path_b_result
  | path_c_result
  | all_results
  | processing_complete
deriving DecidableEq

/-- Channel values of `04_multiple_paths.py`. -/
inductive V where
  | s (x : String)
  | ls (x : List String)
  | b (x : Bool)
deriving DecidableEq

/-- Channel write for the multiple-paths state. -/
def set (st : St) (k : K) (v : V) : St :=
  match k, v with
  | .input_data, .s x => { st with input_data := x }
  | .path_a_result, .s x => { st with path_a_result := x }
  | .path_b_result, .s x => { st with path_b_result := x }
  | .path_c_result, .s x => { st with path_c_result := x }
  | .all_results, .ls x => { st with all_results := x }
  | .processing_complete, .b x => { st with processing_complete := x }
  | _, _ => st

/-- Channel read for the multiple-paths state. -/
def get (st : St) (k : K) : V :=
  match k with
  | .input_data => .s st.input_data
  | .path_a_result => .s st.path_a_result
  | .path_b_result => .s st.path_b_result
  | .path_c_result => .s st.path_c_result
  | .all_results => .ls st.all_results
  | .processing_complete => .b st.processing_complete

/-- `start_node` of `04_multiple_paths.py`. -/
def start_node (s : St) : List (K × V) := [(.input_data, .s s.input_data)]

/-- `path_a_processor` of `04_multiple_paths.py` (uppercase). -/
def path_a_processor (s : St) : List (K × V) :=
  [(.path_a_result, .s ("PATH_A: " ++ Py.upper s.input_data))]

/-- `path_b_processor` of `04_multiple_paths.py` (lowercase). -/
def path_b_processor (s : St) : List (K × V) :=
  [(.path_b_result, .s ("PATH_B: " ++ Py.lower s.input_data))]

/-- `path_c_processor` of `04_multiple_paths.py` (reverse). -/
def path_c_processor (s : St) : List (K × V) :=
  [(.path_c_result, .s ("PATH_C: " ++ Py.reverse s.input_data))]

/-- `collect_results` of `04_multiple_paths.py`.  The walrus conditions
`if path_a := state.get("path_a_result"):` keep a result only when its
string is truthy, i.e. non-empty. -/
def collect_results (s : St) : List (K × V) :=
  let results :=
    (if s.path_a_result ≠ "" then [s.path_a_result] else []) ++
    (if s.path_b_result ≠ "" then [s.path_b_result] else []) ++
    (if s.path_c_result ≠ "" then [s.path_c_result] else [])
  [(.all_results, .ls results), (.processing_complete, .b true)]

/-- `route_to_all_paths` of `04_multiple_paths.py`: a list return, so a
dynamic fan-out to all three processors. -/
def route_to_all_paths (_ : St) : List String :=
  ["path_a_processor", "path_b_processor", "path_c_processor"]

/-- The graph built in `main` of `04_multiple_paths.py`. -/
def g : GraphDef St K V where
  set := set
  nodes :=
    [("start", start_node), ("path_a_processor", path_a_processor),
      ("path_b_processor", path_b_processor),
      ("path_c_processor", path_c_processor), ("collect", collect_results)]
  edges :=
    [("start", .cond route_to_all_paths
        [("path_a_processor", "path_a_processor"),
          ("path_b_processor", "path_b_processor"),
          ("path_c_processor", "path_c_processor")]),
      ("path_a_processor", .static "collect"),
      ("path_b_processor", .static "collect"),
      ("path_c_processor", .static "collect"),
      ("collect", .static endMarker)]

/-- `get` after `set` at a different key is unchanged: the per-channel write
of the multiple-paths state touches no other channel. -/
theorem get_set_ne (s : St) (k : K) (v : V) (k' : K) (h : k' ≠ k) :
    get (set s k v) k' = get s k' := by
  cases k <;> cases k' <;> cases v <;> simp_all [get, set]

end Ex04

/-- C2: a routing function returning a list of names fans out to all of them
in one superstep (a single trace entry holding the three processors), the
next frontier is the de-duplicated union of the contributed targets, and the
three processors' writes are all merged before `collect` runs: for every
initial state, `collect` sees the three results and gathers them into
`all_results`. -/
theorem c2_list_route_fans_out_and_merges_before_collect (s : Ex04.St) :
    (LG.runN Ex04.g 4 ⟨s, ["start"]⟩ =
      .ok ⟨⟨s.input_data,
            "PATH_A: " ++ Py.upper s.input_data,
            "PATH_B: " ++ Py.lower s.input_data,
            "PATH_C: " ++ Py.reverse s.input_data,
            ["PATH_A: " ++ Py.upper s.input_data,
              "PATH_B: " ++ Py.lower s.input_data,
              "PATH_C: " ++ Py.reverse s.input_data], true⟩, [LG.endMarker]⟩ ∧
      LG.traceN Ex04.g 4 ⟨s, ["start"]⟩ =
        [["start"],
          ["path_a_processor", "path_b_processor", "path_c_processor"],
          ["collect"]]) ∧
    (∀ l : List String, (LG.dedup l).Nodup ∧ ∀ a, a ∈ LG.dedup l ↔ a ∈ l) := by
  have ha : ("PATH_A: " ++ Py.upper s.input_data) ≠ "" :=
    LG.append_left_ne_empty _ _ (by decide)
  have hb : ("PATH_B: " ++ Py.lower s.input_data) ≠ "" :=
    LG.append_left_ne_empty _ _ (by decide)
  have hc : ("PATH_C: " ++ Py.reverse s.input_data) ≠ "" :=
    LG.append_left_ne_empty _ _ (by decide)
  obtain ⟨i, ra, rb, rc, ar, pc⟩ := s
  refine ⟨⟨?_, ?_⟩, LG.dedup_nodup_and_mem⟩ <;>
    simp [LG.runN, LG.superstep, LG.applyUpdates, LG.mergeWrites, LG.routeAll,
      LG.routeOne, LG.resolveTargets, LG.alookup, LG.nodeOf, LG.dedup,
      LG.dedupAux, LG.done, LG.traceN, LG.endMarker, Ex04.g, Ex04.set,
      Ex04.start_node, Ex04.path_a_processor, Ex04.path_b_processor,
      Ex04.path_c_processor, Ex04.collect_results, Ex04.route_to_all_paths,
      ha, hb, hc]

/-- C8: a channel key absent from a node's returned partial update keeps its
pre-merge value.  First in general, for any state type whose per-channel
write touches no other channel; then for `path_a_processor`, whose update
names only `path_a_result`, so the other five channels of the
multiple-paths state are unchanged by that merge. -/
theorem c8_omitted_channels_unchanged :
    (∀ (σ K V : Type) [DecidableEq K] [DecidableEq V]
      (set : σ → K → V → σ) (get : σ → K → V),
      (∀ s k v k', k' ≠ k → get (set s k v) k' = get s k') →
      ∀ (s s' : σ) (ups : List (List (K × V))) (k' : K),
        LG.applyUpdates set s ups = .ok s' →
        (∀ kv ∈ ups.flatten, Prod.fst kv ≠ k') →
        get s' k' = get s k') ∧
    (∀ (s : Ex04.St) (k' : Ex04.K), k' ≠ Ex04.K.path_a_result →
      ∃ s', LG.applyUpdates Ex04.set s [Ex04.path_a_processor s] = .ok s' ∧
        Ex04.get s' k' = Ex04.get s k') := by
  constructor
  · intro σ K V instK instV set get law s s' ups k' h hk
    exact LG.mergeWrites_not_written set get law ups.flatten [] s s' k' h hk
  · intro s k' h
    refine ⟨Ex04.set s .path_a_result
      (.s ("PATH_A: " ++ Py.upper s.input_data)), rfl, ?_⟩
    exact Ex04.get_set_ne s _ _ k' h

/-- Witness for C8: merging `path_a_processor`'s update at a concrete state
leaves `input_data` (and, through the general part, any unnamed channel of
any merge) unchanged. -/
theorem c8_omitted_channels_unchanged_witness :
    (∃ s', LG.applyUpdates Ex04.set ⟨"hi", "", "", "", [], false⟩
        [Ex04.path_a_processor ⟨"hi", "", "", "", [], false⟩] = .ok s' ∧
      Ex04.get s' Ex04.K.input_data =
        Ex04.get ⟨"hi", "", "", "", [], false⟩ Ex04.K.input_data) ∧
    Ex04.get ⟨"hi", "x", "", "", [], false⟩ Ex04.K.processing_complete =
      Ex04.get ⟨"hi", "", "", "", [], false⟩ Ex04.K.processing_complete :=
  ⟨c8_omitted_channels_unchanged.2 ⟨"hi", "", "", "", [], false⟩
      Ex04.K.input_data (by decide),
    c8_omitted_channels_unchanged.1 Ex04.St Ex04.K Ex04.V Ex04.set Ex04.get
      Ex04.get_set_ne ⟨"hi", "", "", "", [], false⟩ ⟨"hi", "x", "", "", [], false⟩
      [[(Ex04.K.path_a_result, Ex04.V.s "x")]] Ex04.K.processing_complete rfl
      (by decide)⟩

namespace Ex18

open LG

/-- Python dict assignment `d[k] = v` on a string-keyed dict modelled as an
insertion-ordered association list: an existing key is overwritten in place,
a new key is appended. -/
def dictInsert : List (String × String) → String → String → List (String × String)
  | [], k, v => [(k, v)]
  | (k', v') :: rest, k, v =>
    if k' = k then (k, v) :: rest else (k', v') :: dictInsert rest k v

/-- State schema of `18_branching_merging.py` (`BranchingState`). -/
structure St where
  input_data : String
  branch_paths : List String
  branch_results : List (String × String)
  merged_result : String
  merge_strategy : String
deriving DecidableEq

/-- Channel keys of `18_branching_merging.py`. -/
inductive K where
  | input_data
  | branch_paths
  | branch_results
  | merged_result
  | merge_strategy
deriving DecidableEq

/-- Channel values of `18_branching_merging.py`. -/
inductive V where
  | s (x : String)
  | ls (x : List String)
  | d (x : List (String × String))
deriving DecidableEq

/-- Channel write for the branching state. -/
def set (st : St) (k : K) (v : V) : St :=
  match k, v with
  | .input_data, .s x => { st with input_data := x }
  | .branch_paths, .ls x => { st with branch_paths := x }
  | .branch_results, .d x => { st with branch_results := x }
  | .merged_result, .s x => { st with merged_result := x }
  | .merge_strategy, .s x => { st with merge_strategy := x }
  | _, _ => st

/-- The `branch_results` value contributed by `branch_a_processor`: the
received dict extended with the branch-A result (the snapshot is handed to
each same-superstep node by value, per the spec's copy-on-write rule). -/
def branch_a_value (s : St) : V :=
  .d (dictInsert s.branch_results "branch_a" ("BranchA: " ++ Py.upper s.input_data))

/-- The `branch_results` value contributed by `branch_b_processor`. -/
def branch_b_value (s : St) : V :=
  .d (dictInsert s.branch_results "branch_b" ("BranchB: " ++ Py.lower s.input_data))

/-- The `branch_results` value contributed by `branch_c_processor`. -/
def branch_c_value (s : St) : V :=
  .d (dictInsert s.branch_results "branch_c" ("BranchC: " ++ Py.reverse s.input_data))

/-- `branch_a_processor` of `18_branching_merging.py`. -/
def branch_a_processor (s : St) : List (K × V) := [(.branch_results, branch_a_value s)]

/-- `branch_b_processor` of `18_branching_merging.py`. -/
def branch_b_processor (s : St) : List (K × V) := [(.branch_results, branch_b_value s)]

/-- `branch_c_processor` of `18_branching_merging.py`. -/
def branch_c_processor (s : St) : List (K × V) := [(.branch_results, branch_c_value s)]

/-- Python `" | ".join` over the dict's values, as used by
`merge_all_strategy`. -/
def merge_all_strategy (s : St) : List (K × V) :=
  [(.merged_result, .s (String.intercalate " | " (s.branch_results.map Prod.snd))),
    (.merge_strategy, .s "merge_all")]

/-- `merge_selective_strategy` of `18_branching_merging.py`. -/
def merge_selective_strategy (s : St) : List (K × V) :=
  let selected :=
    (match alookup s.branch_results "branch_a" with
      | some r => [r]
      | none => []) ++
    (match alookup s.branch_results "branch_b" with
      | some r => [r]
      | none => [])
  [(.merged_result, .s (if selected = [] then "No results"
      else String.intercalate " + " selected)),
    (.merge_strategy, .s "merge_selective")]

/-- `merge_priority_strategy` of `18_branching_merging.py`. -/
def merge_priority_strategy (s : St) : List (K × V) :=
  match alookup s.branch_results "branch_a" with
  | some r => [(.merged_result, .s r), (.merge_strategy, .s "merge_priority")]
  | none =>
    match alookup s.branch_results "branch_b" with
    | some r => [(.merged_result, .s r), (.merge_strategy, .s "merge_priority")]
    | none =>
      match alookup s.branch_results "branch_c" with
      | some r => [(.merged_result, .s r), (.merge_strategy, .s "merge_priority")]
      | none =>
        [(.merged_result, .s "No results available"),
          (.merge_strategy, .s "merge_priority")]

/-- `route_to_merge_strategy` of `18_branching_merging.py`. -/
def route_to_merge_strategy (s : St) : List String :=
  if s.branch_results.length ≥ 3 then ["merge_all_strategy"]
  else if s.branch_results.length = 2 then ["merge_selective_strategy"]
  else ["merge_priority_strategy"]

/-- The inline lambda router after `branch_a_processor` in `main` of
`18_branching_merging.py`: a two-way fan-out for long inputs, `[END]`
otherwise. -/
def branch_router (s : St) : List String :=
  if s.input_data.length > 10 then ["branch_b_processor", "branch_c_processor"]
  else [endMarker]

/-- The graph built in `main` of `18_branching_merging.py`.  Note that the
conditional-edge mapping after `branch_a_processor` lists only the two
processors, and the mapping after `merge_all_strategy` sends the output
`"merge_all_strategy"` to `END`, both exactly as in the source. -/
def g : GraphDef St K V where
  set := set
  nodes :=
    [("branch_a_processor", branch_a_processor),
      ("branch_b_processor", branch_b_processor),
      ("branch_c_processor", branch_c_processor),
      ("merge_all_strategy", merge_all_strategy),
      ("merge_selective_strategy", merge_selective_strategy),
      ("merge_priority_strategy", merge_priority_strategy)]
  edges :=
    [("branch_a_processor", .cond branch_router
        [("branch_b_processor", "branch_b_processor"),
          ("branch_c_processor", "branch_c_processor")]),
      ("branch_b_processor", .static "merge_all_strategy"),
      ("branch_c_processor", .static "merge_all_strategy"),
      ("merge_all_strategy", .cond route_to_merge_strategy
        [("merge_all_strategy", endMarker),
          ("merge_selective_strategy", "merge_selective_strategy"),
          ("merge_priority_strategy", "merge_priority_strategy")]),
      ("merge_selective_strategy", .static endMarker),
      ("merge_priority_strategy", .static endMarker)]

end Ex18

/-- C3: with the `overwrite` reducer, two same-superstep writers to one
channel are a fatal `ConflictError` naming the channel and both values
exactly when the two values differ — equal values merge without error.
First in general for the Channel Store fold, then for the superstep of the
branching graph in which `branch_b_processor` and `branch_c_processor` both
write `branch_results`. -/
theorem c3_overwrite_conflict_iff_values_differ :
    (∀ (σ K V : Type) [DecidableEq K] [DecidableEq V]
      (set : σ → K → V → σ) (s : σ) (k : K) (v1 v2 : V),
      LG.applyUpdates set s [[(k, v1)], [(k, v2)]] =
        if v1 = v2 then .ok (set (set s k v1) k v2)
        else .error (.conflict k v1 v2)) ∧
    (∀ s : Ex18.St,
      LG.superstep Ex18.g ⟨s, ["branch_b_processor", "branch_c_processor"]⟩ =
        if Ex18.branch_b_value s = Ex18.branch_c_value s then
          .ok ⟨Ex18.set (Ex18.set s .branch_results (Ex18.branch_b_value s))
                .branch_results (Ex18.branch_c_value s), ["merge_all_strategy"]⟩
        else .error (.conflict Ex18.K.branch_results
          (Ex18.branch_b_value s) (Ex18.branch_c_value s))) := by
  constructor
  · intro σ K V instK instV set s k v1 v2
    by_cases hv : v1 = v2 <;>
      simp [LG.applyUpdates, LG.mergeWrites, LG.alookup, hv]
  · intro s
    by_cases hv : Ex18.branch_b_value s = Ex18.branch_c_value s <;>
      simp [LG.superstep, LG.applyUpdates, LG.mergeWrites, LG.routeAll,
        LG.routeOne, LG.resolveTargets, LG.alookup, LG.nodeOf, LG.dedup,
        LG.dedupAux, LG.endMarker, Ex18.g, Ex18.branch_b_processor,
        Ex18.branch_c_processor, hv]

namespace Ex06

open LG

/-- State schema of `06_error_handling.py` (`GraphState`). -/
structure St where
  input_data : String
  result : String
  error : Option String
  retry_count : Int
  max_retries : Int
  success : Bool
deriving DecidableEq

/-- Channel keys of `06_error_handling.py`. -/
inductive K where
  | input_data
  | result
  | error
  | retry_count
  | max_retries
  | success
deriving DecidableEq

/-- Channel values of `06_error_handling.py`. -/
inductive V where
  | s (x : String)
  | os (x : Option String)
  | i (n : Int)
  | b (x : Bool)
deriving DecidableEq

/-- Channel write for the error-handling state. -/
def set (st : St) (k : K) (v : V) : St :=
  match k, v with
  | .input_data, .s x => { st with input_data := x }
  | .result, .s x => { st with result := x }
  | .error, .os x => { st with error := x }
  | .retry_count, .i n => { st with retry_count := n }
  | .max_retries, .i n => { st with max_retries := n }
  | .success, .b x => { st with success := x }
  | _, _ => st

/-- Python truthiness of the `error` channel: `None` and the empty string
are falsy. -/
def errTruthy : Option String → Bool
  | none => false
  | some e => e ≠ ""

/-- `risky_operation` of `06_error_handling.py`: raises a `ValueError` on
the first attempt (`retry_count == 0`), succeeds otherwise.  A raised
exception is the `.error` case. -/
def risky_operation (s : St) : Except String (List (K × V)) :=
  if s.retry_count = 0 then
    .error ("Simulated error processing: " ++ s.input_data)
  else
    .ok [(.result, .s ("Successfully processed: " ++ s.input_data)),
      (.success, .b true), (.error, .os none)]

/-- `safe_operation_node` of `06_error_handling.py`: tries
`risky_operation` and catches any exception, recording its message in the
`error` channel and keeping `retry_count` at the value read on entry. -/
def safe_operation_node (s : St) : Except String (List (K × V)) :=
  match risky_operation s with
  | .ok r => .ok r
  | .error e => .ok [(.error, .os (some e)), (.retry_count, .i s.retry_count)]

/-- The engine-facing node for `safe_operation`: `safe_operation_node`
never raises (claim C10), so this is just its returned update. -/
def safe_operation (s : St) : List (K × V) :=
  match safe_operation_node s with
  | .ok r => r
  | .error _ => []

/-- `error_handler` of `06_error_handling.py`.  Note it clears the `error`
channel when preparing a retry; a `None` error renders as `"None"` in the
f-string of the exhausted branch. -/
def error_handler (s : St) : List (K × V) :=
  if s.retry_count < s.max_retries then
    [(.retry_count, .i (s.retry_count + 1)), (.error, .os none)]
  else
    [(.error, .os (some ("Failed after " ++ toString s.max_retries ++
      " retries: " ++ (match s.error with | some e => e | none => "None"))))]

/-- `fallback_handler` of `06_error_handling.py`. -/
def fallback_handler (s : St) : List (K × V) :=
  [(.result, .s ("Fallback result for: " ++ s.input_data ++
      " (Original operation failed)")),
    (.success, .b true)]

/-- The inline lambda router after `safe_operation` in `main`. -/
def route_after_safe (s : St) : List String :=
  if errTruthy s.error then ["error_handler"] else [endMarker]

/-- `route_after_error_handling` of `06_error_handling.py`.  Its retry
branch returns the string `"safe_operation_node"`. -/
def route_after_error_handling (s : St) : List String :=
  if errTruthy s.error ∧ s.retry_count ≥ s.max_retries then ["fallback_handler"]
  else if errTruthy s.error then ["safe_operation_node"]
  else [endMarker]

/-- The allow-list mapping of the conditional edge after `error_handler` in
`main`: it maps `"safe_operation"`, not `"safe_operation_node"`. -/
def afterErrorMapping : List (String × String) :=
  [("safe_operation", "safe_operation"), ("fallback_handler", "fallback_handler"),
    (endMarker, endMarker)]

/-- The graph built in `main` of `06_error_handling.py`. -/
def g : GraphDef St K V where
  set := set
  nodes :=
    [("safe_operation", safe_operation), ("error_handler", error_handler),
      ("fallback_handler", fallback_handler)]
  edges :=
    [("safe_operation", .cond route_after_safe
        [("error_handler", "error_handler"), (endMarker, endMarker)]),
      ("error_handler", .cond route_after_error_handling afterErrorMapping),
      ("fallback_handler", .static endMarker)]

/-- The initial state of `main` in `06_error_handling.py`. -/
def initialState : St :=
  ⟨"Test data", "", none, 0, 3, false⟩

end Ex06

/-- C6: what the error-handling graph actually does on `main`'s initial
state.  `safe_operation` catches the first-attempt failure and records the
error; `error_handler` increments `retry_count` to 1 and clears `error`;
`route_after_error_handling` then sees no error and routes to `END`, so the
retry never happens and the run ends with `success = false`, an empty
`result` and `retry_count = 1` — not the successful retry the spec's
scenario expects.  Moreover, had the error not been cleared, the retry
branch's output `"safe_operation_node"` is absent from the edge's
allow-list, a `RoutingError`. -/
theorem c6_retry_scenario_never_retries :
    LG.runN Ex06.g 4 ⟨Ex06.initialState, ["safe_operation"]⟩ ≠
      .ok ⟨⟨"Test data", "Successfully processed: Test data", none, 1, 3, true⟩,
        [LG.endMarker]⟩ ∧
    LG.runN Ex06.g 4 ⟨Ex06.initialState, ["safe_operation"]⟩ =
      .ok ⟨⟨"Test data", "", none, 1, 3, false⟩, [LG.endMarker]⟩ ∧
    LG.traceN Ex06.g 4 ⟨Ex06.initialState, ["safe_operation"]⟩ =
      [["safe_operation"], ["error_handler"]] ∧
    Ex06.route_after_error_handling
      ⟨"Test data", "", some "Simulated error processing: Test data", 1, 3, false⟩ =
      ["safe_operation_node"] ∧
    LG.resolveTargets (K := Ex06.K) (V := Ex06.V) Ex06.afterErrorMapping
      ["safe_operation_node"] = .error (.routing "safe_operation_node") := by
  refine ⟨by decide, rfl, rfl, by decide, rfl⟩

/-- C10: `safe_operation_node` is total over error outcomes — it always
returns a partial update and never propagates an exception.  When
`risky_operation` raises, the update records the exception message in the
`error` channel and keeps `retry_count` at its input value; when it
succeeds, the update is the success result with `success = true` and
`error = None`. -/
theorem c10_safe_operation_node_total (s : Ex06.St) :
    (∃ u, Ex06.safe_operation_node s = .ok u) ∧
    (∀ e, Ex06.risky_operation s = .error e →
      Ex06.safe_operation_node s =
        .ok [(.error, .os (some e)), (.retry_count, .i s.retry_count)]) ∧
    (∀ u, Ex06.risky_operation s = .ok u →
      Ex06.safe_operation_node s = .ok u ∧
      u = [(.result, .s ("Successfully processed: " ++ s.input_data)),
        (.success, .b true), (.error, .os none)]) := by
  refine ⟨?_, ?_, ?_⟩
  · cases h : Ex06.risky_operation s with
    | ok u => exact ⟨u, by simp [Ex06.safe_operation_node, h]⟩
    | error e =>
      exact ⟨[(.error, .os (some e)), (.retry_count, .i s.retry_count)],
        by simp [Ex06.safe_operation_node, h]⟩
  · intro e he
    simp [Ex06.safe_operation_node, he]
  · intro u hu
    refine ⟨by simp [Ex06.safe_operation_node, hu], ?_⟩
    rw [Ex06.risky_operation] at hu
    by_cases h0 : s.retry_count = 0
    · rw [if_pos h0] at hu
      cases hu
    · rw [if_neg h0] at hu
      exact (Except.ok.inj hu).symm

/-- Witness for C10: the failing first attempt (`retry_count = 0`) and the
succeeding retry (`retry_count = 1`) on `main`'s input data. -/
theorem c10_safe_operation_node_total_witness :
    Ex06.safe_operation_node ⟨"Test data", "", none, 0, 3, false⟩ =
      .ok [(.error, .os (some "Simulated error processing: Test data")),
        (.retry_count, .i 0)] ∧
    Ex06.safe_operation_node ⟨"Test data", "", none, 1, 3, false⟩ =
      .ok [(.result, .s "Successfully processed: Test data"),
        (.success, .b true), (.error, .os none)] :=
  ⟨(c10_safe_operation_node_total ⟨"Test data", "", none, 0, 3, false⟩).2.1
      "Simulated error processing: Test data" (by decide),
    ((c10_safe_operation_node_total ⟨"Test data", "", none, 1, 3, false⟩).2.2
      [(.result, .s "Successfully processed: Test data"),
        (.success, .b true), (.error, .os none)] (by decide)).1⟩

namespace LG

/-- Modelled from the spec: the Checkpoint Store contract (§4.4) — `put` a
checkpoint for a thread identity, `getLatest` the newest one, and the
contract law that the latest checkpoint after a `put` is the one just put.
The checkpoint payload is the snapshot plus pending frontier (§3). -/
structure StoreImpl (σ : Type) where
  S : Type
  empty : S
  put : S → String → RunState σ → S
  getLatest : S → String → Option (RunState σ)
  get_put : ∀ s tid c, getLatest (put s tid c) tid = some c

/-- Modelled from the spec: a checkpointed run (§4.3 step 5) — after every
completed superstep the new snapshot and next frontier are persisted before
advancing.  Stopping the fuel early models a caller suspending the run at a
superstep boundary. -/
def runCk [DecidableEq K] [DecidableEq V] (g : GraphDef σ K V)
    (st : StoreImpl σ) (tid : String) :
    Nat → RunState σ → st.S → Except (Err K V) (RunState σ × st.S)
  | 0, rs, s => .ok (rs, s)
  | n + 1, rs, s =>
    if done rs then .ok (rs, s)
    else
      match superstep g rs with
      | .error e => .error e
      | .ok rs' => runCk g st tid n rs' (st.put s tid rs')

/-- Modelled from the spec: `invoke(None, thread_id)` — load the latest
checkpoint for the thread identity and re-enter the run from it; `none`
when the store has no checkpoint for that thread. -/
def resumeCk [DecidableEq K] [DecidableEq V] (g : GraphDef σ K V)
    (st : StoreImpl σ) (tid : String) (fuel : Nat) (s : st.S) :
    Option (Except (Err K V) (RunState σ × st.S)) :=
  (st.getLatest s tid).map fun c => runCk g st tid fuel c s

/-- The run component of a checkpointed run is the plain run: the store
never influences scheduling. -/
theorem runCk_fst [DecidableEq K] [DecidableEq V] (g : GraphDef σ K V)
    (st : StoreImpl σ) (tid : String) :
    ∀ (n : Nat) (rs : RunState σ) (s : st.S),
      (runCk g st tid n rs s).map Prod.fst = runN g n rs := by
  intro n
  induction n with
  | zero => intro rs s; rfl
  | succ n ih =>
    intro rs s
    rw [runCk, runN]
    by_cases hd : done rs = true
    · rw [if_pos hd, if_pos hd]; rfl
    · rw [if_neg hd, if_neg hd]
      cases hs : superstep g rs with
      | error e => rfl
      | ok rs' => exact ih rs' _

/-- A terminal run state is a fixed point of the run loop. -/
theorem runN_done [DecidableEq K] [DecidableEq V] (g : GraphDef σ K V)
    (rs : RunState σ) (h : done rs = true) : ∀ n, runN g n rs = .ok rs := by
  intro n
  cases n with
  | zero => rfl
  | succ n => rw [runN, if_pos h]

/-- Splitting the fuel of a run: running `k + m` supersteps is running `k`
and then `m` more from where the first leg stopped. -/
theorem runN_add [DecidableEq K] [DecidableEq V] (g : GraphDef σ K V) :
    ∀ (k m : Nat) (rs : RunState σ),
      runN g (k + m) rs =
        match runN g k rs with
        | .error e => .error e
        | .ok rs' => runN g m rs' := by
  intro k
  induction k with
  | zero => intro m rs; rw [Nat.zero_add]; rfl
  | succ k ih =>
    intro m rs
    rw [Nat.succ_add, runN, runN]
    by_cases hd : done rs = true
    · rw [if_pos hd, if_pos hd]
      exact (runN_done g rs hd m).symm
    · rw [if_neg hd, if_neg hd]
      cases hs : superstep g rs with
      | error e => rfl
      | ok rs' => exact ih m rs'

/-- The invariant "the store's latest checkpoint for this thread is the
current run state" is preserved by every checkpointed superstep. -/
theorem runCk_keeps_inv [DecidableEq K] [DecidableEq V] (g : GraphDef σ K V)
    (st : StoreImpl σ) (tid : String) :
    ∀ (n : Nat) (rs : RunState σ) (s : st.S) (p : RunState σ × st.S),
      st.getLatest s tid = some rs →
      runCk g st tid n rs s = .ok p →
      st.getLatest p.2 tid = some p.1 := by
  intro n
  induction n with
  | zero =>
    intro rs s p hinv h
    cases h
    exact hinv
  | succ n ih =>
    intro rs s p hinv h
    rw [runCk] at h
    by_cases hd : done rs = true
    · rw [if_pos hd] at h
      cases h
      exact hinv
    · rw [if_neg hd] at h
      split at h
      · cases h
      · rename_i rs' hs
        exact ih rs' _ p (st.get_put s tid rs') h

/-- After at least one checkpointed superstep from a non-terminal state, the
store's latest checkpoint for the thread is the state the run stopped in. -/
theorem runCk_first_inv [DecidableEq K] [DecidableEq V] (g : GraphDef σ K V)
    (st : StoreImpl σ) (tid : String) (n : Nat) (rs : RunState σ) (s : st.S)
    (p : RunState σ × st.S) (hd : done rs = false)
    (h : runCk g st tid (n + 1) rs s = .ok p) :
    st.getLatest p.2 tid = some p.1 := by
  rw [runCk] at h
  rw [if_neg (by simp [hd])] at h
  split at h
  · cases h
  · rename_i rs' hs
    exact runCk_keeps_inv g st tid n rs' _ p (st.get_put s tid rs') h

/-- Modelled from the spec: the volatile in-process checkpoint store
(`MemorySaver` in `07_memory_persistence.py`; the store is runtime-library
code, not in src).  It keeps only the latest checkpoint per thread
identity. -/
def memSaver (σ : Type) : StoreImpl σ where
  S := List (String × RunState σ)
  empty := []
  put s tid c := (tid, c) :: s.filter (fun p => p.1 != tid)
  getLatest s tid := alookup s tid
  get_put := by intro s tid c; simp [alookup]

/-- One row of the durable checkpoint log: thread identity, superstep
ordinal, checkpoint payload. -/
structure SqliteRow (σ : Type) where
  thread : String
  index : Nat
  ckpt : RunState σ

/-- Newest matching row of the durable log (rows are prepended). -/
def sqliteGetLatest : List (SqliteRow σ) → String → Option (RunState σ)
  | [], _ => none
  | r :: rest, tid => if r.thread = tid then some r.ckpt else sqliteGetLatest rest tid

/-- Modelled from the spec: the durable checkpoint store (`SqliteSaver` in
`17_checkpoints_sqlite.py`; the store is runtime-library code, not in src).
An append-only log of rows, never mutated, so every prior superstep stays
available; `getLatest` reads the newest row of the thread. -/
def sqliteSaver (σ : Type) : StoreImpl σ where
  S := List (SqliteRow σ)
  empty := []
  put s tid c := ⟨tid, s.length, c⟩ :: s
  getLatest := sqliteGetLatest
  get_put := by intro s tid c; simp [sqliteGetLatest]

end LG

namespace Ex07

open LG

/-- State schema of `07_memory_persistence.py` (`GraphState`). -/
structure St where
  step_number : Int
  data : String
  processed_steps : List String
  completed : Bool
deriving DecidableEq

/-- Channel keys of `07_memory_persistence.py`. -/
inductive K where
  | step_number
  | data
  | processed_steps
  | completed
deriving DecidableEq

/-- Channel values of `07_memory_persistence.py`. -/
inductive V where
  | i (n : Int)
  | s (x : String)
  | ls (x : List String)
  | b (x : Bool)
deriving DecidableEq

/-- Channel write for the persistence state. -/
def set (st : St) (k : K) (v : V) : St :=
  match k, v with
  | .step_number, .i n => { st with step_number := n }
  | .data, .s x => { st with data := x }
  | .processed_steps, .ls x => { st with processed_steps := x }
  | .completed, .b x => { st with completed := x }
  | _, _ => st

/-- `step_one` of `07_memory_persistence.py` as a call.  The first component
is the returned partial update.  The second is the received snapshot after
the call: `processed_steps.append("step_one")` mutates the snapshot's list
object in place, so the caller's snapshot leaves the call with the extended
list, while every other channel of the snapshot is untouched (the update's
new `data` string is a fresh object, not a mutation). -/
def step_one_call (s : St) : List (K × V) × St :=
  ([(.step_number, .i 1), (.data, .s (s.data ++ " -> Step1")),
      (.processed_steps, .ls (s.processed_steps ++ ["step_one"]))],
    { s with processed_steps := s.processed_steps ++ ["step_one"] })

/-- The partial update of `step_one`, as the engine receives it. -/
def step_one (s : St) : List (K × V) := (step_one_call s).1

/-- `step_two` of `07_memory_persistence.py` (same shape as `step_one`). -/
def step_two (s : St) : List (K × V) :=
  [(.step_number, .i 2), (.data, .s (s.data ++ " -> Step2")),
    (.processed_steps, .ls (s.processed_steps ++ ["step_two"]))]

/-- `step_three` of `07_memory_persistence.py`. -/
def step_three (s : St) : List (K × V) :=
  [(.step_number, .i 3), (.data, .s (s.data ++ " -> Step3")),
    (.processed_steps, .ls (s.processed_steps ++ ["step_three"])),
    (.completed, .b true)]

/-- The graph built in `main` of `07_memory_persistence.py`:
`step_one -> step_two -> step_three -> END`. -/
def g : GraphDef St K V where
  set := set
  nodes :=
    [("step_one", step_one), ("step_two", step_two), ("step_three", step_three)]
  edges :=
    [("step_one", .static "step_two"), ("step_two", .static "step_three"),
      ("step_three", .static endMarker)]

/-- The initial state of `main` in `07_memory_persistence.py`. -/
def initialState : St := ⟨0, "Initial", [], false⟩

end Ex07

namespace Ex17

open LG

/-- State schema of `17_checkpoints_sqlite.py` (`CheckpointedState`). -/
structure St where
  user_id : String
  task_description : String
  current_step : Int
  total_steps : Int
  results : List String
  completed : Bool
deriving DecidableEq

/-- Channel keys of `17_checkpoints_sqlite.py`. -/
inductive K where
  | user_id
  | task_description
  | current_step
  | total_steps
  | results
  | completed
deriving DecidableEq

/-- Channel values of `17_checkpoints_sqlite.py`. -/
inductive V where
  | s (x : String)
  | i (n : Int)
  | ls (x : List String)
  | b (x : Bool)
deriving DecidableEq

/-- Channel write for the SQLite-checkpointed state. -/
def set (st : St) (k : K) (v : V) : St :=
  match k, v with
  | .user_id, .s x => { st with user_id := x }
  | .task_description, .s x => { st with task_description := x }
  | .current_step, .i n => { st with current_step := n }
  | .total_steps, .i n => { st with total_steps := n }
  | .results, .ls x => { st with results := x }
  | .completed, .b x => { st with completed := x }
  | _, _ => st

/-- `step_one` of `17_checkpoints_sqlite.py`. -/
def step_one (s : St) : List (K × V) :=
  [(.current_step, .i 1),
    (.results, .ls (s.results ++
      ["Step 1: Started processing \x27" ++ s.task_description ++ "\x27"]))]

/-- `step_two` of `17_checkpoints_sqlite.py`. -/
def step_two (s : St) : List (K × V) :=
  [(.current_step, .i 2),
    (.results, .ls (s.results ++
      ["Step 2: Analyzed \x27" ++ s.task_description ++ "\x27"]))]

/-- `step_three` of `17_checkpoints_sqlite.py`. -/
def step_three (s : St) : List (K × V) :=
  [(.current_step, .i 3),
    (.results, .ls (s.results ++
      ["Step 3: Completed \x27" ++ s.task_description ++ "\x27"])),
    (.completed, .b true)]

/-- The graph built in `main` of `17_checkpoints_sqlite.py`:
`step_one -> step_two -> step_three -> END`. -/
def g : GraphDef St K V where
  set := set
  nodes :=
    [("step_one", step_one), ("step_two", step_two), ("step_three", step_three)]
  edges :=
    [("step_one", .static "step_two"), ("step_two", .static "step_three"),
      ("step_three", .static endMarker)]

/-- User 1's initial state in `main` of `17_checkpoints_sqlite.py`. -/
def initialState : St :=
  ⟨"user-001", "Process user 1\x27s request", 0, 3, [], false⟩

end Ex17

/-- C4: resuming from the latest checkpoint reproduces the uninterrupted
run.  In general: for any graph, any checkpoint store satisfying the §4.4
contract, and any run suspended after `k + 1` supersteps, resuming with
`invoke(None, thread_id)` semantics for `m` more supersteps ends in exactly
the run state the uninterrupted `(k + 1) + m`-superstep run reaches.  Then
concretely for the persistence graph of `07_memory_persistence.py` with the
in-memory saver and for the graph of `17_checkpoints_sqlite.py` with the
SQLite-log saver, each suspended after superstep 1 and resumed to
completion. -/
theorem c4_resume_matches_uninterrupted_run :
    (∀ (σ K V : Type) [DecidableEq K] [DecidableEq V]
      (g : LG.GraphDef σ K V) (st : LG.StoreImpl σ) (tid : String)
      (init : LG.RunState σ) (k m : Nat) (rsK : LG.RunState σ) (sK : st.S)
      (rsF : LG.RunState σ),
      LG.done init = false →
      LG.runCk g st tid (k + 1) init st.empty = .ok (rsK, sK) →
      LG.runN g (k + 1 + m) init = .ok rsF →
      ∃ sF, LG.resumeCk g st tid m sK = some (.ok (rsF, sF))) ∧
    (∃ p q,
      LG.runCk Ex07.g (LG.memSaver Ex07.St) "workflow-001" 1
          ⟨Ex07.initialState, ["step_one"]⟩ (LG.memSaver Ex07.St).empty = .ok p ∧
      LG.resumeCk Ex07.g (LG.memSaver Ex07.St) "workflow-001" 3 p.2 =
        some (.ok q) ∧
      q.1 = ⟨⟨3, "Initial -> Step1 -> Step2 -> Step3",
        ["step_one", "step_two", "step_three"], true⟩, [LG.endMarker]⟩ ∧
      LG.runN Ex07.g 4 ⟨Ex07.initialState, ["step_one"]⟩ = .ok q.1) ∧
    (∃ p q,
      LG.runCk Ex17.g (LG.sqliteSaver Ex17.St) "user-001" 1
          ⟨Ex17.initialState, ["step_one"]⟩ (LG.sqliteSaver Ex17.St).empty =
        .ok p ∧
      LG.resumeCk Ex17.g (LG.sqliteSaver Ex17.St) "user-001" 3 p.2 =
        some (.ok q) ∧
      q.1 = ⟨⟨"user-001", "Process user 1\x27s request", 3, 3,
        ["Step 1: Started processing \x27Process user 1\x27s request\x27",
          "Step 2: Analyzed \x27Process user 1\x27s request\x27",
          "Step 3: Completed \x27Process user 1\x27s request\x27"], true⟩,
        [LG.endMarker]⟩ ∧
      LG.runN Ex17.g 4 ⟨Ex17.initialState, ["step_one"]⟩ = .ok q.1) := by
  refine ⟨?_, ⟨_, _, rfl, rfl, rfl, rfl⟩, ⟨_, _, rfl, rfl, rfl, rfl⟩⟩
  intro σ K V instK instV g st tid init k m rsK sK rsF hd hck hrun
  have hinv :=
    LG.runCk_first_inv g st tid k init st.empty (rsK, sK) hd hck
  have h1 : LG.runN g (k + 1) init = .ok rsK := by
    have hfst := LG.runCk_fst g st tid (k + 1) init st.empty
    rw [hck] at hfst
    exact hfst.symm
  have h2 : LG.runN g m rsK = .ok rsF := by
    have hadd := LG.runN_add g (k + 1) m init
    rw [hrun, h1] at hadd
    exact hadd.symm
  have h3 := LG.runCk_fst g st tid m rsK sK
  rw [h2] at h3
  cases hcc : LG.runCk g st tid m rsK sK with
  | error e => rw [hcc] at h3; cases h3
  | ok pq =>
    rw [hcc] at h3
    obtain ⟨a, b⟩ := pq
    have ha : a = rsF := Except.ok.inj h3
    refine ⟨b, ?_⟩
    unfold LG.resumeCk
    rw [hinv]
    show some (LG.runCk g st tid m rsK sK) = some (.ok (rsF, b))
    rw [hcc, ha]

/-- Witness for C4: the persistence graph suspended after superstep 1 with
the in-memory saver, then resumed to completion, lands on the uninterrupted
final state. -/
theorem c4_resume_matches_uninterrupted_run_witness :
    ∃ sF, LG.resumeCk Ex07.g (LG.memSaver Ex07.St) "workflow-001" 3
        [("workflow-001", ⟨⟨1, "Initial -> Step1", ["step_one"], false⟩,
          ["step_two"]⟩)] =
      some (.ok (⟨⟨3, "Initial -> Step1 -> Step2 -> Step3",
        ["step_one", "step_two", "step_three"], true⟩, [LG.endMarker]⟩, sF)) :=
  c4_resume_matches_uninterrupted_run.1 Ex07.St Ex07.K Ex07.V Ex07.g
    (LG.memSaver Ex07.St) "workflow-001" ⟨Ex07.initialState, ["step_one"]⟩ 0 3
    ⟨⟨1, "Initial -> Step1", ["step_one"], false⟩, ["step_two"]⟩
    [("workflow-001", ⟨⟨1, "Initial -> Step1", ["step_one"], false⟩,
      ["step_two"]⟩)]
    ⟨⟨3, "Initial -> Step1 -> Step2 -> Step3",
      ["step_one", "step_two", "step_three"], true⟩, [LG.endMarker]⟩
    rfl rfl rfl

namespace Ex11

open LG

/-- State schema of `11_agent_patterns.py` (`AgentState`). -/
structure St where
  user_query : String
  agent_thoughts : List String
  agent_actions : List String
  tool_results : List String
  final_answer : String
  iteration_count : Int
  max_iterations : Int
  should_continue : Bool
deriving DecidableEq

/-- Channel keys of `11_agent_patterns.py`. -/
inductive K where
  | user_query
  | agent_thoughts
  | agent_actions
  | tool_results
  | final_answer
  | iteration_count
  | max_iterations
  | should_continue
deriving DecidableEq

/-- Channel values of `11_agent_patterns.py`. -/
inductive V where
  | s (x : String)
  | ls (x : List String)
  | i (n : Int)
  | b (x : Bool)
deriving DecidableEq

/-- Channel write for the agent state. -/
def set (st : St) (k : K) (v : V) : St :=
  match k, v with
  | .user_query, .s x => { st with user_query := x }
  | .agent_thoughts, .ls x => { st with agent_thoughts := x }
  | .agent_actions, .ls x => { st with agent_actions := x }
  | .tool_results, .ls x => { st with tool_results := x }
  | .final_answer, .s x => { st with final_answer := x }
  | .iteration_count, .i n => { st with iteration_count := n }
  | .max_iterations, .i n => { st with max_iterations := n }
  | .should_continue, .b x => { st with should_continue := x }
  | _, _ => st

/-- The `search_web` tool of `11_agent_patterns.py` (simulated search). -/
def search_web (query : String) : String :=
  "Web search results for \x27" ++ query ++
    "\x27: Found relevant information about the topic."

/-- `agent_think` of `11_agent_patterns.py`: simulated reasoning keyed on
`iteration_count` — `search_web` on iteration 0, `finalize` afterwards. -/
def agent_think (s : St) : List (K × V) :=
  let thought :=
    if s.iteration_count = 0 then
      "Initial thought: I need to answer the query \x27" ++ s.user_query ++
        "\x27. Let me search for information."
    else if s.iteration_count = 1 then
      "Thought: I found some information. Let me process it and provide an answer."
    else
      "Thought: I have enough information. I should provide the final answer."
  let action := if s.iteration_count = 0 then "search_web" else "finalize"
  [(.agent_thoughts, .ls (s.agent_thoughts ++ [thought])),
    (.agent_actions, .ls (s.agent_actions ++ [action])),
    (.iteration_count, .i (s.iteration_count + 1))]

/-- The full state as an update, for `agent_act`'s `return state` branch. -/
def fullState (s : St) : List (K × V) :=
  [(.user_query, .s s.user_query), (.agent_thoughts, .ls s.agent_thoughts),
    (.agent_actions, .ls s.agent_actions), (.tool_results, .ls s.tool_results),
    (.final_answer, .s s.final_answer), (.iteration_count, .i s.iteration_count),
    (.max_iterations, .i s.max_iterations), (.should_continue, .b s.should_continue)]

/-- `agent_act` of `11_agent_patterns.py`: executes the last decided
action. -/
def agent_act (s : St) : List (K × V) :=
  if s.agent_actions = [] then fullState s
  else
    match s.agent_actions.getLast? with
    | some "search_web" =>
      [(.tool_results, .ls (s.tool_results ++ [search_web s.user_query]))]
    | some "finalize" =>
      [(.tool_results,
        .ls (s.tool_results ++ ["Finalizing answer based on collected information"]))]
    | _ => [(.tool_results, .ls s.tool_results)]

/-- `agent_respond` of `11_agent_patterns.py`. -/
def agent_respond (s : St) : List (K × V) :=
  [(.final_answer, .s ("Based on my analysis:\n" ++
    "Query: " ++ s.user_query ++ "\n" ++
    "Thoughts: " ++ String.intercalate "; " s.agent_thoughts ++ "\n" ++
    "Findings: " ++ String.intercalate "; " s.tool_results ++ "\n" ++
    "Final Answer: I\x27ve gathered the necessary information to address your query."))]

/-- `should_continue` of `11_agent_patterns.py`: stop when the iteration
budget is reached or the last action is `finalize`. -/
def should_continue (s : St) : List String :=
  if s.iteration_count ≥ s.max_iterations then ["respond"]
  else
    match s.agent_actions.getLast? with
    | some "finalize" => ["respond"]
    | _ => ["think"]

/-- The graph built in `main` of `11_agent_patterns.py`: the ReAct loop
`think -> act -> (think | respond)`, `respond -> END`. -/
def g : GraphDef St K V where
  set := set
  nodes :=
    [("think", agent_think), ("act", agent_act), ("respond", agent_respond)]
  edges :=
    [("think", .static "act"),
      ("act", .cond should_continue [("think", "think"), ("respond", "respond")]),
      ("respond", .static endMarker)]

/-- The initial state of `main` in `11_agent_patterns.py`. -/
def initialState : St :=
  ⟨"What is LangGraph and how does it work?", [], [], [], "", 0, 3, true⟩

/-- A deliberately cyclic one-node graph, `loop -> loop`, with no writes:
the caller encodes no termination condition at all. -/
def loopGraph : GraphDef Unit Unit Unit where
  set := fun _ _ _ => ()
  nodes := [("loop", fun _ => [])]
  edges := [("loop", .static "loop")]

end Ex11

/-- The last element of a list extended by one element. -/
theorem getLast_append_one {α : Type} (l : List α) (a : α) :
    (l ++ [a]).getLast? = some a := by
  induction l with
  | nil => rfl
  | cons b t ih =>
    cases t with
    | nil => rfl
    | cons c u => simpa using ih

/-- C9 (amended): the engine imposes no iteration cap — a cyclic graph with
no caller-encoded stop runs forever, its node reappearing in every frontier
— while the agent loop terminates only because `should_continue` checks the
caller's counter: for every initial state with `iteration_count = 0`, the
run reaches the terminal marker within six supersteps, the `think -> act`
cycle executes once when `max_iterations ≤ 1` and twice otherwise (the
second `think` decides `finalize`), so the number of loop iterations is at
most `max(max_iterations, 1)`. -/
theorem c9_no_engine_cap_and_caller_bounded_loop :
    (∀ n : Nat, LG.runN Ex11.loopGraph n ⟨(), ["loop"]⟩ = .ok ⟨(), ["loop"]⟩) ∧
    (∀ s : Ex11.St, s.iteration_count = 0 →
      (LG.runN Ex11.g 6 ⟨s, ["think"]⟩).map LG.RunState.frontier =
        .ok [LG.endMarker] ∧
      LG.traceN Ex11.g 6 ⟨s, ["think"]⟩ =
        (if s.max_iterations ≤ 1 then [["think"], ["act"], ["respond"]]
          else [["think"], ["act"], ["think"], ["act"], ["respond"]]) ∧
      ((LG.traceN Ex11.g 6 ⟨s, ["think"]⟩).count ["think"] : Int) ≤
        max s.max_iterations 1) := by
  constructor
  · intro n
    induction n with
    | zero => rfl
    | succ n ih => exact ih
  · intro s h0
    by_cases hm : s.max_iterations ≤ 1
    · have ht : LG.traceN Ex11.g 6 ⟨s, ["think"]⟩ =
          [["think"], ["act"], ["respond"]] := by
        simp [LG.traceN, LG.runN, LG.superstep, LG.applyUpdates, LG.mergeWrites,
          LG.routeAll, LG.routeOne, LG.resolveTargets, LG.alookup, LG.nodeOf,
          LG.dedup, LG.dedupAux, LG.done, LG.endMarker, Ex11.g, Ex11.set,
          Ex11.agent_think, Ex11.agent_act, Ex11.agent_respond,
          Ex11.should_continue, Ex11.search_web, Ex11.fullState,
          getLast_append_one, ge_iff_le, h0, hm]
      refine ⟨?_, ?_, ?_⟩
      · simp [LG.traceN, LG.runN, LG.superstep, LG.applyUpdates, LG.mergeWrites,
          LG.routeAll, LG.routeOne, LG.resolveTargets, LG.alookup, LG.nodeOf,
          LG.dedup, LG.dedupAux, LG.done, LG.endMarker, Ex11.g, Ex11.set,
          Ex11.agent_think, Ex11.agent_act, Ex11.agent_respond,
          Ex11.should_continue, Ex11.search_web, Ex11.fullState,
          getLast_append_one, ge_iff_le, Except.map, h0, hm]
      · rw [ht, if_pos hm]
      · rw [ht]
        have hc : ([["think"], ["act"], ["respond"]] :
            List (List String)).count ["think"] = 1 := by decide
        rw [hc]
        simp only [Nat.cast_one]
        exact le_max_right s.max_iterations 1
    · have ht : LG.traceN Ex11.g 6 ⟨s, ["think"]⟩ =
          [["think"], ["act"], ["think"], ["act"], ["respond"]] := by
        simp [LG.traceN, LG.runN, LG.superstep, LG.applyUpdates, LG.mergeWrites,
          LG.routeAll, LG.routeOne, LG.resolveTargets, LG.alookup, LG.nodeOf,
          LG.dedup, LG.dedupAux, LG.done, LG.endMarker, Ex11.g, Ex11.set,
          Ex11.agent_think, Ex11.agent_act, Ex11.agent_respond,
          Ex11.should_continue, Ex11.search_web, Ex11.fullState,
          getLast_append_one, ge_iff_le, h0, hm]
      refine ⟨?_, ?_, ?_⟩
      · simp [LG.traceN, LG.runN, LG.superstep, LG.applyUpdates, LG.mergeWrites,
          LG.routeAll, LG.routeOne, LG.resolveTargets, LG.alookup, LG.nodeOf,
          LG.dedup, LG.dedupAux, LG.done, LG.endMarker, Ex11.g, Ex11.set,
          Ex11.agent_think, Ex11.agent_act, Ex11.agent_respond,
          Ex11.should_continue, Ex11.search_web, Ex11.fullState,
          getLast_append_one, ge_iff_le, Except.map, h0, hm]
      · rw [ht, if_neg hm]
      · rw [ht]
        have hc : ([["think"], ["act"], ["think"], ["act"], ["respond"]] :
            List (List String)).count ["think"] = 2 := by decide
        rw [hc]
        have h2 : (2 : Int) ≤ s.max_iterations := by omega
        exact le_trans h2 (le_max_left s.max_iterations 1)

/-- Counterexample for C9 as stated: with `max_iterations = 0` (allowed by
the claim's `m >= 0`) the `think -> act` cycle still executes once before
`should_continue` is first consulted, so the run performs more than `m`
loop iterations. -/
theorem c9_as_stated_fails_at_zero_budget :
    ¬ (((LG.traceN Ex11.g 6
        ⟨⟨"q", [], [], [], "", 0, 0, true⟩, ["think"]⟩).count ["think"] : Int) ≤
      (0 : Int)) := by
  decide

/-- Witness for C9: `main`'s initial state (`max_iterations = 3`) reaches
the terminal marker with two loop iterations. -/
theorem c9_no_engine_cap_and_caller_bounded_loop_witness :
    (LG.runN Ex11.g 6 ⟨Ex11.initialState, ["think"]⟩).map LG.RunState.frontier =
      .ok [LG.endMarker] ∧
    LG.traceN Ex11.g 6 ⟨Ex11.initialState, ["think"]⟩ =
      [["think"], ["act"], ["think"], ["act"], ["respond"]] ∧
    ((LG.traceN Ex11.g 6 ⟨Ex11.initialState, ["think"]⟩).count ["think"] : Int) ≤
      max Ex11.initialState.max_iterations 1 := by
  have h := c9_no_engine_cap_and_caller_bounded_loop.2 Ex11.initialState rfl
  refine ⟨h.1, ?_, h.2.2⟩
  rw [h.2.1, if_neg (by decide : ¬ Ex11.initialState.max_iterations ≤ 1)]

namespace Ex15

open LG

/-- `UserProfile` of `15_advanced_state.py`. -/
structure UserProfile where
  user_id : String
  name : String
  email : String
  preferences : List (String × String)
deriving DecidableEq

/-- `ProcessingMetadata` of `15_advanced_state.py`. -/
structure ProcessingMetadata where
  start_time : String
  nodes_executed : List String
  errors : List String
  warnings : List String
deriving DecidableEq

/-- One entry of the `results` list: a `dict[str, str]` with keys `step`,
`output` and `timestamp`. -/
structure ResultEntry where
  step : String
  output : String
  timestamp : String
deriving DecidableEq

/-- `AdvancedGraphState` of `15_advanced_state.py`. -/
structure St where
  task_id : String
  status : String
  user : UserProfile
  steps : List String
  results : List ResultEntry
  metadata : ProcessingMetadata
  messages : List String
deriving DecidableEq

/-- Channel keys of `15_advanced_state.py`. -/
inductive K where
  | task_id
  | status
  | user
  | steps
  | results
  | metadata
  | messages
deriving DecidableEq

/-- Channel values of `15_advanced_state.py`. -/
inductive V where
  | s (x : String)
  | up (x : UserProfile)
  | ls (x : List String)
  | lr (x : List ResultEntry)
  | md (x : ProcessingMetadata)
deriving DecidableEq

/-- Channel write for the advanced state. -/
def set (st : St) (k : K) (v : V) : St :=
  match k, v with
  | .task_id, .s x => { st with task_id := x }
  | .status, .s x => { st with status := x }
  | .user, .up x => { st with user := x }
  | .steps, .ls x => { st with steps := x }
  | .results, .lr x => { st with results := x }
  | .metadata, .md x => { st with metadata := x }
  | .messages, .ls x => { st with messages := x }
  | _, _ => st

/-- `process_node` of `15_advanced_state.py` as a call.  First component:
the returned partial update (the source's comment: "only fields that
changed").  Second component: the received snapshot after the call.  The
body appends to `steps`, `results` and `messages`, and to the
`nodes_executed` list inside `metadata`, all fetched from the snapshot and
mutated in place; the `metadata` dict in the update is a fresh
`{**metadata, ...}` copy, but the inner `nodes_executed` list of the
snapshot's own metadata was the one appended to. -/
def process_node_call (s : St) : List (K × V) × St :=
  let new_step := "Processing step " ++ toString (s.steps.length + 1)
  let new_result : ResultEntry :=
    ⟨new_step, "Processed for task " ++ s.task_id, toString s.results.length⟩
  let steps' := s.steps ++ [new_step]
  let results' := s.results ++ [new_result]
  let nodes' := s.metadata.nodes_executed ++ ["process_node"]
  let messages' := s.messages ++ ["Executed " ++ new_step]
  ([(.steps, .ls steps'), (.results, .lr results'),
      (.metadata, .md { s.metadata with nodes_executed := nodes' }),
      (.messages, .ls messages')],
    { s with
      steps := steps', results := results', messages := messages',
      metadata := { s.metadata with nodes_executed := nodes' } })

/-- The partial update of `process_node`, as the engine receives it. -/
def process_node (s : St) : List (K × V) := (process_node_call s).1

/-- The state `initialize_node` produces in `main` of
`15_advanced_state.py` (with a fixed start time standing for
`datetime.now()`). -/
def exampleState : St :=
  ⟨"TASK-001", "processing",
    ⟨"USER-123", "John Doe", "john@example.com",
      [("theme", "dark"), ("language", "en")]⟩,
    [], [], ⟨"t0", [], [], []⟩, ["State initialized"]⟩

end Ex15

/-- Counterexample for C7 as stated: node invocations do mutate the
snapshot they receive.  `step_one` of `07_memory_persistence.py` appends to
the snapshot's `processed_steps` list in place, and `process_node` of
`15_advanced_state.py` appends to the snapshot's `steps`, `results`,
`messages` and `metadata.nodes_executed`; at these concrete snapshots the
post-call snapshot differs from the received one. -/
theorem c7_as_stated_nodes_do_mutate :
    (Ex07.step_one_call Ex07.initialState).2 ≠ Ex07.initialState ∧
    (Ex15.process_node_call Ex15.exampleState).2 ≠ Ex15.exampleState := by
  decide

/-- C7 (amended): a node's effect on the run goes only through the partial
update it returns, which the engine alone merges; scalar channels of the
received snapshot are never mutated; but list- and dict-valued channels
fetched from the snapshot are extended in place by `append` before being
returned, so after the call the snapshot differs from the received one in
exactly those appends — which are the same lists the update carries. -/
theorem c7_only_container_channels_mutate_in_place
    (s : Ex07.St) (t : Ex15.St) :
    ((Ex07.step_one_call s).2.step_number = s.step_number ∧
      (Ex07.step_one_call s).2.data = s.data ∧
      (Ex07.step_one_call s).2.completed = s.completed ∧
      (Ex07.step_one_call s).2.processed_steps =
        s.processed_steps ++ ["step_one"] ∧
      (Ex07.step_one_call s).1 =
        [(.step_number, .i 1), (.data, .s (s.data ++ " -> Step1")),
          (.processed_steps, .ls ((Ex07.step_one_call s).2.processed_steps))]) ∧
    ((Ex15.process_node_call t).2.task_id = t.task_id ∧
      (Ex15.process_node_call t).2.status = t.status ∧
      (Ex15.process_node_call t).2.user = t.user ∧
      (Ex15.process_node_call t).2.metadata.start_time = t.metadata.start_time ∧
      (Ex15.process_node_call t).2.metadata.errors = t.metadata.errors ∧
      (Ex15.process_node_call t).2.metadata.warnings = t.metadata.warnings ∧
      (Ex15.process_node_call t).2.steps =
        t.steps ++ ["Processing step " ++ toString (t.steps.length + 1)] ∧
      (Ex15.process_node_call t).2.results = t.results ++
        [⟨"Processing step " ++ toString (t.steps.length + 1),
          "Processed for task " ++ t.task_id, toString t.results.length⟩] ∧
      (Ex15.process_node_call t).2.metadata.nodes_executed =
        t.metadata.nodes_executed ++ ["process_node"] ∧
      (Ex15.process_node_call t).2.messages = t.messages ++
        ["Executed " ++ ("Processing step " ++ toString (t.steps.length + 1))] ∧
      (Ex15.process_node_call t).1 =
        [(.steps, .ls ((Ex15.process_node_call t).2.steps)),
          (.results, .lr ((Ex15.process_node_call t).2.results)),
          (.metadata, .md ((Ex15.process_node_call t).2.metadata)),
          (.messages, .ls ((Ex15.process_node_call t).2.messages))]) :=
  ⟨⟨rfl, rfl, rfl, rfl, rfl⟩,
    ⟨rfl, rfl, rfl, rfl, rfl, rfl, rfl, rfl, rfl, rfl, rfl⟩⟩
